import Mathlib

/-!
Verification of the edgar-sec-parser tiered ingestion engine.

This file is a shallow embedding of the decision logic of the repository:
the size-based tier router (`sec_extractor/config/settings.py`,
`sec_extractor/core/tiered_processor.py`), the dead-letter-queue manager
(`sec_extractor/storage/dead_letter_queue.py`), the persistence layer
(`sec_extractor/storage/database.py`), and the integrated parser pipeline
(`sec_extractor/parsers/integrated_parser.py`,
`sec_extractor/core/parser_integration.py`).

Modelling conventions:
* Python floats that carry file sizes in MB are modelled as rationals (`ℚ`);
  attempt counters are naturals; timestamps are integers counting hours, so
  Python's `timedelta(hours=h)` becomes `+ h`.
* ORM rows become Lean structures; the database becomes an explicit record of
  row lists.  A manager method becomes a function from the store to the new
  store and the method's return value.  The ORM machinery is modelled where
  it decides control flow: class attribute access, `filter_by` keyword
  resolution and the declarative constructor are checked against the mapped
  attributes recorded from storage/models.py and raise when they fail; a
  body that raises is rolled back, leaving the store unchanged; a session
  closed without `session.commit()` discards its pending changes.
* Python exception control flow is modelled with `Except` over an explicit
  exception type `PyExc`; `PyExc.isException` records which constructors
  derive from Python's `Exception` class (every standard error does,
  `MemoryError` included; `KeyboardInterrupt` does not).
-/

/-- Default `SMALL_FILE_THRESHOLD` from `Settings` (settings.py line 27). -/
def SMALL_FILE_THRESHOLD : ℚ := 10

/-- Default `MEDIUM_FILE_THRESHOLD` from `Settings` (settings.py line 28). -/
def MEDIUM_FILE_THRESHOLD : ℚ := 50

/-- Default `LARGE_FILE_THRESHOLD` from `Settings` (settings.py line 29). -/
def LARGE_FILE_THRESHOLD : ℚ := 100

/-- `Settings.determine_processing_tier` (settings.py lines 69-78), identical
to `TieredProcessor._determine_processing_tier` (tiered_processor.py lines
285-293): strictly-greater comparisons against the three thresholds. -/
def determine_processing_tier (file_size_mb : ℚ) : String :=
  if file_size_mb > LARGE_FILE_THRESHOLD then "dead_letter"
  else if file_size_mb > MEDIUM_FILE_THRESHOLD then "minimal"
  else if file_size_mb > SMALL_FILE_THRESHOLD then "limited"
  else "standard"

/-- `Settings.get_timeout_for_tier` (settings.py lines 59-67) with the default
timeout configuration `TIMEOUT_STANDARD=300`, `TIMEOUT_LIMITED=120`,
`TIMEOUT_MINIMAL=60`; an unknown tier falls back to the standard timeout
(`timeout_map.get(tier, self.TIMEOUT_STANDARD)`). -/
def get_timeout_for_tier (tier : String) : ℕ :=
  if tier = "standard" then 300
  else if tier = "limited" then 120
  else if tier = "minimal" then 60
  else if tier = "dead_letter" then 0
  else 300

/-- `DeadLetterQueueManager._calculate_retry_eligibility`
(dead_letter_queue.py lines 306-324).  The Python body is a chain of early
`return False` guards followed by `return True`. -/
def calculate_retry_eligibility (attempt_count : ℕ) (file_size_mb : ℚ)
    (failure_type : String) : Bool :=
  if attempt_count ≥ 5 then false
  else if file_size_mb > 100 then false
  else if file_size_mb > 50 ∧ attempt_count ≥ 2 then false
  else if failure_type = "memory" ∧ file_size_mb > 25 then false
  else if failure_type = "parsing" ∧ attempt_count ≥ 3 then false
  else true

/-- `DeadLetterQueueManager._calculate_backoff_hours` (dead_letter_queue.py
lines 326-330): `min(24 * (2 ** (attempt_count - 1)), 192)`. -/
def calculate_backoff_hours (attempt_count : ℕ) : ℕ :=
  min (24 * 2 ^ (attempt_count - 1)) 192

/-- `DeadLetterQueueManager._suggest_tier` (dead_letter_queue.py lines
332-339). -/
def suggest_tier (attempt_count : ℕ) (file_size_mb : ℚ)
    (failure_type : String) : String :=
  if failure_type = "memory" ∨ file_size_mb > 30 then "minimal"
  else if attempt_count ≥ 2 ∨ file_size_mb > 15 then "limited"
  else "standard"

/-- `DeadLetterQueueManager._calculate_priority` (dead_letter_queue.py lines
341-357): sequential adjustments of a base priority of 1, then
`max(1, min(5, priority))`. -/
def calculate_priority (file_size_mb : ℚ) (failure_type : String) : ℤ :=
  let p0 : ℤ := 1
  let p1 : ℤ :=
    if file_size_mb < 5 then p0 + 2
    else if file_size_mb < 15 then p0 + 1
    else p0
  let p2 : ℤ :=
    if failure_type = "network" ∨ failure_type = "temporary" then p1 + 1
    else if failure_type = "memory" ∨ failure_type = "timeout" then p1 - 1
    else p1
  max 1 (min 5 p2)

/-- The priority formula as the specification states it: base 1, plus the
size-bracket bonus (+2 below 5 MB, otherwise +1 below 15 MB), plus 1 for
network/temporary failures, minus 1 for memory/timeout failures, clamped to
the range [1,5]. -/
def priority_spec_formula (file_size_mb : ℚ) (failure_type : String) : ℤ :=
  max 1 (min 5
    (1
      + (if file_size_mb < 5 then 2 else if file_size_mb < 15 then 1 else 0)
      + (if failure_type = "network" ∨ failure_type = "temporary" then 1
         else if failure_type = "memory" ∨ failure_type = "timeout" then -1
         else 0)))

/-- Python exceptions relevant to the pipeline's control flow.  Each
constructor corresponds to an exception class raised or handled in the
source. -/
inductive PyExc where
  /-- `ParseError` from `parsers/base.py`. -/
  | parseError : String → PyExc
  /-- Built-in `MemoryError` (an out-of-memory condition). -/
  | memoryError : String → PyExc
  /-- The custom `TimeoutError` from `core/timeout_manager.py`. -/
  | timeoutError : String → PyExc
  /-- Built-in `AttributeError` carrying the object type and the missing
  attribute name. -/
  | attributeError : String → String → PyExc
  /-- Built-in `ValueError`. -/
  | valueError : String → PyExc
  /-- Built-in `TypeError`, as raised by SQLAlchemy's declarative
  constructor for an invalid keyword argument (model class, argument). -/
  | typeError : String → String → PyExc
  /-- SQLAlchemy's `InvalidRequestError`, as raised by `filter_by` for an
  unmapped property (entity, property name).  It derives from
  `SQLAlchemyError`, hence from `Exception`. -/
  | invalidRequestError : String → String → PyExc
  /-- Built-in `KeyboardInterrupt`, which derives from `BaseException` but
  not from `Exception`. -/
  | keyboardInterrupt : PyExc
deriving DecidableEq

/-- Whether an `except Exception` clause catches this exception in Python.
Every standard error class, `MemoryError` included, derives from
`Exception`; `KeyboardInterrupt` derives only from `BaseException`. -/
def PyExc.isException : PyExc → Bool
  | .keyboardInterrupt => false
  | _ => true

/-- The printable message of the exception, as interpolated into error
strings by the source. -/
def PyExc.message : PyExc → String
  | .parseError m => m
  | .memoryError m => m
  | .timeoutError m => m
  | .attributeError obj attr =>
      obj ++ " object has no attribute " ++ attr
  | .valueError m => m
  | .typeError cls kwarg =>
      kwarg ++ " is an invalid keyword argument for " ++ cls
  | .invalidRequestError entity property =>
      "Entity " ++ entity ++ " has no property " ++ property
  | .keyboardInterrupt => "KeyboardInterrupt"

/-- The mapped attributes of the `Filing` declarative model
(storage/models.py lines 37-90).  Its primary-key attribute is `filing_id`
(line 44); the class defines no attribute named `id`. -/
def filing_attributes : List String :=
  ["filing_id", "accession_number", "cik", "company_name", "form_type",
   "filed_at", "period_of_report", "acceptance_datetime", "sic",
   "state_of_incorporation", "fiscal_year_end", "business_address",
   "business_phone", "sgml_parsing_time", "xbrl_parsing_time",
   "integrated_parsing_time", "xbrl_facts_count", "sgml_parsed",
   "xbrl_parsed", "parsing_strategy", "filing_url", "filing_html_url",
   "file_size_mb", "processing_status", "processing_tier", "created_at",
   "updated_at", "documents", "fund_metadata", "sections", "tables",
   "xbrl_data", "xbrl_facts", "processing_logs", "dead_letter_entry",
   "processing_result"]

/-- The mapped attributes of the `DeadLetterQueue` declarative model
(storage/models.py lines 243-263).  There are no `retry_after_hours`,
`original_error_details` or `system_metrics` columns. -/
def dead_letter_queue_columns : List String :=
  ["id", "filing_id", "failure_reason", "failure_type", "original_tier",
   "file_size_mb", "attempt_count", "max_attempts", "retry_eligible",
   "last_attempt", "next_retry", "suggested_tier", "priority",
   "created_at", "updated_at", "filing"]

/-- The keyword arguments `add_filing` passes to the `DeadLetterQueue`
constructor (dead_letter_queue.py lines 87-101), in source order. -/
def dlq_constructor_kwargs : List String :=
  ["filing_id", "failure_reason", "failure_type", "original_tier",
   "file_size_mb", "attempt_count", "retry_eligible", "next_retry",
   "retry_after_hours", "suggested_tier", "priority",
   "original_error_details", "system_metrics"]

/-- The mapped attributes of the `ProcessingResult` declarative model
(storage/models.py lines 227-241).  The count columns are `table_count`
and `section_count`; there are no `tables_extracted`, `sections_found` or
`result_data` attributes. -/
def processing_result_columns : List String :=
  ["id", "filing_id", "processing_tier", "success", "error_message",
   "table_count", "section_count", "processing_duration", "created_at",
   "filing"]

/-- The keyword arguments `save_processing_result` passes to the
`ProcessingResult` constructor (database.py lines 162-171), in source
order. -/
def processing_result_kwargs : List String :=
  ["filing_id", "processing_tier", "success", "tables_extracted",
   "sections_found", "processing_duration", "result_data", "created_at"]

/-- Python attribute access on a class object: raises `AttributeError`
when the class defines no attribute of that name. -/
def class_getattr (cls : String) (attrs : List String) (attr : String) :
    Except PyExc Unit :=
  if attr ∈ attrs then .ok () else .error (.attributeError cls attr)

/-- SQLAlchemy's `Query.filter_by(key=...)`: the keyword is resolved
against the queried entity's mapped attributes, raising
`InvalidRequestError` when the entity has no such property. -/
def query_filter_by (entity : String) (attrs : List String)
    (key : String) : Except PyExc Unit :=
  if key ∈ attrs then .ok () else .error (.invalidRequestError entity key)

/-- SQLAlchemy's declarative constructor: raises `TypeError` at the first
keyword argument that is not an attribute of the model class. -/
def declarative_constructor (cls : String) (attrs kwargs : List String) :
    Except PyExc Unit :=
  match kwargs.find? (fun k => decide (¬ k ∈ attrs)) with
  | some k => .error (.typeError cls k)
  | none => .ok ()

/-- A row of the `dead_letter_queue` table (storage/models.py lines 243-263)
together with the two extra attributes `add_filing`'s update branch
assigns on the entry object by plain Python attribute assignment
(`retry_after_hours`, `original_error_details`).  Timestamps count
hours. -/
structure DLQEntry where
  filing_id : ℕ
  failure_reason : String
  failure_type : String
  original_tier : Option String
  file_size_mb : ℚ
  attempt_count : ℕ
  retry_eligible : Bool
  last_attempt : ℤ
  next_retry : Option ℤ
  retry_after_hours : ℕ
  suggested_tier : Option String
  priority : ℤ
  original_error_details : Option String
  created_at : ℤ
  updated_at : ℤ
deriving DecidableEq

/-- The slice of a `filings` row that the DLQ manager touches
(storage/models.py lines 37-93): the primary key, the processing status and
the update timestamp. -/
structure FilingRec where
  id : ℕ
  processing_status : String
  updated_at : ℤ
deriving DecidableEq

/-- The database state seen by `DeadLetterQueueManager`: the
`dead_letter_queue` rows and the `filings` rows. -/
structure DLQState where
  entries : List DLQEntry
  filings : List FilingRec
deriving DecidableEq

/-- The update `add_filing` performs on an existing DLQ entry
(dead_letter_queue.py lines 50-81): increment `attempt_count`, refresh the
failure fields, recompute `retry_eligible`, and recompute
`next_retry`/`retry_after_hours`/`suggested_tier` when still eligible
(clearing `next_retry` and `suggested_tier` otherwise).  `priority` is not
touched on this path. -/
def dlq_update_existing (now : ℤ) (error : String) (file_size_mb : ℚ)
    (failure_type : String) (error_details : Option String)
    (e : DLQEntry) : DLQEntry :=
  let ac := e.attempt_count + 1
  let elig := calculate_retry_eligibility ac file_size_mb failure_type
  { e with
    attempt_count := ac
    last_attempt := now
    failure_reason := error
    failure_type := failure_type
    file_size_mb := file_size_mb
    retry_eligible := elig
    next_retry := if elig then some (now + (calculate_backoff_hours ac : ℤ))
                  else none
    retry_after_hours := if elig then calculate_backoff_hours ac
                         else e.retry_after_hours
    suggested_tier := if elig then
                        some (suggest_tier ac file_size_mb failure_type)
                      else none
    original_error_details := match error_details with
                              | some d => some d
                              | none => e.original_error_details
    updated_at := now }

/-- The `DLQModel(...)` constructor call of `add_filing`'s insert branch
(dead_letter_queue.py lines 87-101).  Its keyword arguments include
`retry_after_hours`, `original_error_details` and `system_metrics`, none
of which is an attribute of the `DeadLetterQueue` model, so the
declarative constructor raises `TypeError`; the record in the unreachable
`ok` branch is the entry the call would otherwise build. -/
def dlq_new_entry (now : ℤ) (filing_id : ℕ) (error : String)
    (file_size_mb : ℚ) (failure_type : String)
    (original_tier : Option String) (error_details : Option String) :
    Except PyExc DLQEntry :=
  match declarative_constructor "DeadLetterQueue"
      dead_letter_queue_columns dlq_constructor_kwargs with
  | .error e => .error e
  | .ok _ =>
      let elig := calculate_retry_eligibility 1 file_size_mb failure_type
      .ok { filing_id := filing_id
            failure_reason := error
            failure_type := failure_type
            original_tier := original_tier
            file_size_mb := file_size_mb
            attempt_count := 1
            retry_eligible := elig
            last_attempt := now
            next_retry := if elig then some (now + 24) else none
            retry_after_hours := if elig then 24 else 0
            suggested_tier := if elig then
                                some (suggest_tier 1 file_size_mb
                                  failure_type)
                              else none
            priority := calculate_priority file_size_mb failure_type
            original_error_details := error_details
            created_at := now
            updated_at := now }

/-- The filing-status update of dead_letter_queue.py lines 108-110, as it
would apply to the filings list: the matching row gets
`processing_status='dead_letter'` and a fresh `updated_at`.  `add_filing`
reaches this update only through the line-107 lookup, which raises. -/
def filing_dead_letter_update (now : ℤ) (filing_id : ℕ)
    (filings : List FilingRec) : List FilingRec :=
  filings.map fun f =>
    if f.id = filing_id then
      { f with processing_status := "dead_letter", updated_at := now }
    else f

/-- The body of `DeadLetterQueueManager.add_filing` (dead_letter_queue.py
lines 45-112) up to `session.commit()`: stage the in-place update of an
existing DLQ row (lines 50-81) or evaluate the model constructor of the
insert branch (lines 85-102), then run the `filter_by(id=filing_id)`
lookup of line 107 needed for the filing-status update.  The insert branch
raises `TypeError` in the constructor; the update branch reaches line 107,
whose lookup raises `InvalidRequestError` because `Filing`'s key
attribute is `filing_id`, not `id`.  The `ok` branch is the state a
commit would persist. -/
def add_filing_body (now : ℤ) (filing_id : ℕ) (error : String)
    (file_size_mb : ℚ) (failure_type : String)
    (original_tier : Option String) (error_details : Option String)
    (st : DLQState) : Except PyExc DLQState := do
  let entries' ←
    if st.entries.any (fun e => e.filing_id = filing_id) then
      pure (st.entries.map fun e =>
        if e.filing_id = filing_id then
          dlq_update_existing now error file_size_mb failure_type
            error_details e
        else e)
    else do
      let entry ← dlq_new_entry now filing_id error file_size_mb
        failure_type original_tier error_details
      pure (st.entries ++ [entry])
  let _ ← query_filter_by "Filing" filing_attributes "id"
  pure { entries := entries'
         filings := filing_dead_letter_update now filing_id st.filings }

/-- `DeadLetterQueueManager.add_filing` (dead_letter_queue.py lines
28-120): the body runs inside `try ... except Exception`.  Both errors
the body can raise derive from `Exception`, so on a raise the session is
rolled back - the store is unchanged - and the method returns `False`;
only a completed body would commit and return `True`. -/
def add_filing (now : ℤ) (filing_id : ℕ) (error : String)
    (file_size_mb : ℚ) (failure_type : String)
    (original_tier : Option String) (error_details : Option String)
    (st : DLQState) : DLQState × Bool :=
  match add_filing_body now filing_id error file_size_mb failure_type
      original_tier error_details st with
  | .ok st' => (st', true)
  | .error _ => (st, false)

/-- The update `mark_as_processed` performs on a DLQ entry after a failed
retry (dead_letter_queue.py lines 249-262): increment `attempt_count`,
refresh `last_attempt`, recompute `retry_eligible` from the stored size and
failure type, and recompute `next_retry` (clearing it when no longer
eligible). -/
def dlq_failed_retry_update (now : ℤ) (e : DLQEntry) : DLQEntry :=
  let ac := e.attempt_count + 1
  let elig := calculate_retry_eligibility ac e.file_size_mb e.failure_type
  { e with
    attempt_count := ac
    last_attempt := now
    retry_eligible := elig
    next_retry := if elig then some (now + (calculate_backoff_hours ac : ℤ))
                  else none
    updated_at := now }

/-- The outcome of running a session block: the entries view the session
built, pending changes included, and whether `session.commit()` was
called. -/
structure SessionRun where
  pending : List DLQEntry
  committed : Bool
deriving DecidableEq

/-- The session block of `DeadLetterQueueManager.mark_as_processed`
(dead_letter_queue.py lines 240-265): on success the DLQ row is deleted
in the session, on failure it is updated for the next attempt — and on
every path the method returns without ever calling `session.commit()`;
the `filings` table is not touched. -/
def mark_as_processed_session (now : ℤ) (filing_id : ℕ) (success : Bool)
    (st : DLQState) : SessionRun :=
  if st.entries.any (fun e => e.filing_id = filing_id) then
    if success then
      { pending := st.entries.filter fun e => ¬ e.filing_id = filing_id
        committed := false }
    else
      { pending := st.entries.map fun e =>
          if e.filing_id = filing_id then dlq_failed_retry_update now e
          else e
        committed := false }
  else { pending := st.entries, committed := false }

/-- Exit of the `with self.db.get_session() as session` block: the
session is closed; pending changes reach the store only if the session
committed, otherwise the close discards them. -/
def session_close (st : DLQState) (run : SessionRun) : DLQState :=
  if run.committed then { st with entries := run.pending } else st

/-- `DeadLetterQueueManager.mark_as_processed` (dead_letter_queue.py
lines 228-269): run the session block and return `True` from inside the
`with` block, whose exit closes the session.  Because the block never
commits, the close discards the staged delete or update and the store
comes back unchanged. -/
def mark_as_processed (now : ℤ) (filing_id : ℕ) (success : Bool)
    (st : DLQState) : DLQState × Bool :=
  (session_close st (mark_as_processed_session now filing_id success st),
   true)

/-- The metadata object of a parsing result (`FilingMetadata` in
parsers/base.py lines 42-63); only identity fields are needed here. -/
structure FilingMeta where
  accession_number : Option String
  cik : Option String
  company_name : Option String
deriving DecidableEq

/-- One XBRL fact as carried by parsing results. -/
structure XbrlFactR where
  concept : String
  value : String
deriving DecidableEq

/-- `ParsingResult` from parsers/base.py lines 17-39, restricted to the
fields the integration layer reads. -/
structure ParsingResultR where
  success : Bool
  parser_name : String
  metadata : Option FilingMeta
  xbrl_facts : List XbrlFactR
  error_message : Option String
deriving DecidableEq

/-- The result-combination step of `FilingParser.parse`
(integrated_parser.py lines 148-207) over the outcomes of the sub-parsers
that the strategy selected (`none` when a sub-parser did not run).  Metadata
is taken from the SGML result when it succeeded and carried metadata, else
from the successful XBRL result; facts are concatenated from successful
sub-results only; the combined `success` is true when any selected
sub-result succeeded; error messages of failed sub-results are joined. -/
def integrated_combine (sgmlRes xbrlRes : Option ParsingResultR) :
    ParsingResultR :=
  let results : List ParsingResultR := sgmlRes.toList ++ xbrlRes.toList
  let m1 : Option FilingMeta :=
    match sgmlRes with
    | some r => if r.success then r.metadata else none
    | none => none
  let m2 : Option FilingMeta :=
    match m1 with
    | some m => some m
    | none =>
        match xbrlRes with
        | some r => if r.success then r.metadata else none
        | none => none
  let facts : List XbrlFactR :=
    (match sgmlRes with
     | some r => if r.success then r.xbrl_facts else []
     | none => []) ++
    (match xbrlRes with
     | some r => if r.success then r.xbrl_facts else []
     | none => [])
  let errs : List String :=
    results.filterMap fun r =>
      if r.success then none else r.error_message
  { success := results.any (·.success)
    parser_name := "FilingParser"
    metadata := m2
    xbrl_facts := facts
    error_message := if errs.isEmpty then none
                     else some (String.intercalate "; " errs) }

/-- The failure result built by the `except Exception` clause of
`FilingParser.parse` (integrated_parser.py lines 216-228): success false, no
metadata, no facts, the formatted error message. -/
def filing_parser_failure_result (e : PyExc) : ParsingResultR :=
  { success := false
    parser_name := "FilingParser"
    metadata := none
    xbrl_facts := []
    error_message := some ("Integrated parsing failed: " ++ e.message) }

/-- `FilingParser.parse` (integrated_parser.py lines 126-228).  The whole
body runs inside `try ... except Exception`: if the body raises an exception
that derives from `Exception` (which `MemoryError` does), the error is
converted into a failed `ParsingResult`; only `BaseException`-level
interrupts propagate.  The body's outcome is passed in explicitly: either
the combined result or the exception the body raised. -/
def filing_parser_parse (body : Except PyExc ParsingResultR) :
    Except PyExc ParsingResultR :=
  match body with
  | .ok r => .ok r
  | .error e =>
      if e.isException then .ok (filing_parser_failure_result e)
      else .error e

/-- A section dict as persisted into `NcsrSection`
(storage/models.py lines 125-136). -/
structure SectionData where
  section_name : String
  section_type : String
  text_clean : String
  word_count : ℕ
deriving DecidableEq

/-- A row dict as persisted into `NcsrTableRow`
(storage/models.py lines 153-164). -/
structure RowData where
  row_index : ℕ
  col_name : String
  col_value : String
  col_type : String
deriving DecidableEq

/-- A table dict as persisted into `NcsrTable` (storage/models.py lines
138-151), with its `rows` list popped off by `save_processing_result`. -/
structure TableData where
  table_type : String
  caption : Option String
  row_count : ℕ
  column_count : ℕ
  rows : List RowData
deriving DecidableEq

/-- The processing-result dict consumed by
`DatabaseManager.save_processing_result`: the `success` flag and the child
collections it reads (`fund_metadata`, `sections`, `tables`), plus the
summary counters.  `fund_metadata` is `none` when the key is absent or the
dict is empty (both falsy under `result.get("fund_metadata")`). -/
structure ProcResult where
  success : Bool
  fund_metadata : Option FilingMeta
  sections : List SectionData
  tables : List TableData
  table_count : ℕ
  section_count : ℕ
  error : Option String
deriving DecidableEq

/-- The rows written by one `save_processing_result` call, plus the
processing status it stores on the `Filing` row. -/
structure SaveEffects where
  filing_status : String
  fund_metadata_rows : ℕ
  section_rows : ℕ
  table_rows : ℕ
  table_row_rows : ℕ
  xbrl_fact_rows : ℕ
  processing_result_rows : ℕ
  processing_result_success : Bool
deriving DecidableEq

/-- The rows the body of `save_processing_result` (database.py lines
130-173) would write for a given result dict, had control reached it: the
filing's status becomes `completed` iff `result.success` else `failed`; a
`FundMetadata` row iff `fund_metadata` is truthy; one `NcsrSection` per
entry of `sections`; one `NcsrTable` per entry of `tables` with one
`NcsrTableRow` per popped row; no XBRL-fact row; one `ProcessingResult`
summary row. -/
def save_effects_of_result (result : ProcResult) : SaveEffects :=
  { filing_status := if result.success then "completed" else "failed"
    fund_metadata_rows := if result.fund_metadata.isSome then 1 else 0
    section_rows := result.sections.length
    table_rows := result.tables.length
    table_row_rows := (result.tables.map (fun t => t.rows.length)).sum
    xbrl_fact_rows := 0
    processing_result_rows := 1
    processing_result_success := result.success }

/-- `DatabaseManager.save_processing_result` (database.py lines 120-182).
Its first statement (line 125) evaluates `Filing.id`, but the model's key
attribute is `filing_id` (storage/models.py line 44) and the class
defines no `id`, so `AttributeError` is raised before the result dict is
read; the `except SQLAlchemyError` clause does not catch
`AttributeError`, so the error propagates and nothing is written or
committed.  Had the lookup succeeded, the `ProcessingResult(...)`
constructor (lines 162-170) would still raise `TypeError` on its
`tables_extracted` keyword before the commit. -/
def save_processing_result (result : ProcResult) :
    Except PyExc SaveEffects := do
  let _ ← class_getattr "Filing" filing_attributes "id"
  let _ ← declarative_constructor "ProcessingResult"
    processing_result_columns processing_result_kwargs
  pure (save_effects_of_result result)

/-- The total number of child rows (fund metadata, sections, tables, table
rows, XBRL facts) written by a save. -/
def SaveEffects.child_rows (s : SaveEffects) : ℕ :=
  s.fund_metadata_rows + s.section_rows + s.table_rows + s.table_row_rows +
    s.xbrl_fact_rows

/-- `ParserManager._convert_to_legacy_format` (parser_integration.py lines
101-164): the legacy result carries the parser result's success flag,
`fund_metadata` derived from the metadata object (a non-empty dict exactly
when metadata is present), always-empty `sections` and `tables` with zero
counts, and the error message when parsing failed. -/
def convert_to_legacy_format (pr : ParsingResultR) : ProcResult :=
  { success := pr.success
    fund_metadata := pr.metadata
    sections := []
    tables := []
    table_count := 0
    section_count := 0
    error := if pr.success then none else pr.error_message }

/-- The attributes defined on `TimeoutManager` instances
(core/timeout_manager.py lines 29-51): the `settings` field set in
`__init__` and the two methods.  The module-level `timeout_context` context
manager (lines 10-27) is a free function of the module, not an attribute of
this class. -/
def timeout_manager_attributes : List String :=
  ["settings", "get_parse_timeout", "get_processing_tier"]

/-- Python attribute lookup on a `TimeoutManager` instance: succeeds for the
attributes the class defines and raises `AttributeError` otherwise. -/
def timeout_manager_getattr (attr : String) : Except PyExc Unit :=
  if attr ∈ timeout_manager_attributes then .ok ()
  else .error (.attributeError "TimeoutManager" attr)

/-- `TieredProcessor._process_with_tier` (tiered_processor.py lines
295-305): reject unknown tiers, look up the tier's timeout, then evaluate
`self.timeout_manager.timeout_context(timeout)` — an attribute lookup of
`timeout_context` on the `TimeoutManager` instance — before running the
extraction body under it. -/
def process_with_tier (tier : String)
    (body : Except PyExc ProcResult) : Except PyExc ProcResult :=
  if tier ∈ ["standard", "limited", "minimal"] then
    let _timeout := get_timeout_for_tier tier
    match timeout_manager_getattr "timeout_context" with
    | .ok _ => body
    | .error e => .error e
  else .error (.valueError ("Unknown processing tier: " ++ tier))

/-- The exception dispatch of `TieredProcessor.process_filing`
(tiered_processor.py lines 134-145): `TimeoutError` is routed to the
timeout handler, `MemoryError` to the memory handler, and any other
`Exception` to the general handler; the handlers add the filing to the DLQ
with failure types `timeout`, `memory` and `processing` respectively
(lines 313-353). -/
def process_filing_failure_type : PyExc → String
  | .timeoutError _ => "timeout"
  | .memoryError _ => "memory"
  | _ => "processing"

/-- Mapping a function that fixes every element of a list leaves the list
unchanged. -/
theorem map_eq_self_of_fix {α : Type} (f : α → α) :
    ∀ l : List α, (∀ x ∈ l, f x = x) → l.map f = l := by
  intro l h
  induction l with
  | nil => rfl
  | cons a t ih =>
      simp only [List.map_cons, h a (List.mem_cons_self a t)]
      rw [ih (fun x hx => h x (List.mem_cons_of_mem a hx))]

/-- An ORM `UPDATE ... WHERE key = fid` over a list holding exactly one
matching row rewrites that row and fixes all others. -/
theorem map_update_of_unique {α : Type} (q : α → Prop) [DecidablePred q]
    (f : α → α) (pre post : List α) (e : α)
    (hpre : ∀ x ∈ pre, ¬ q x) (hpost : ∀ x ∈ post, ¬ q x) (he : q e) :
    (pre ++ e :: post).map (fun x => if q x then f x else x) =
      pre ++ f e :: post := by
  rw [List.map_append, List.map_cons, if_pos he,
    map_eq_self_of_fix _ pre (fun x hx => if_neg (hpre x hx)),
    map_eq_self_of_fix _ post (fun x hx => if_neg (hpost x hx))]

/-- A membership witness makes `List.any` with the matching key true. -/
theorem any_of_key {α : Type} (q : α → Prop) [DecidablePred q]
    (pre post : List α) (e : α) (he : q e) :
    (pre ++ e :: post).any (fun x => decide (q x)) = true := by
  simp only [List.any_append, List.any_cons, Bool.or_eq_true,
    decide_eq_true_eq]
  exact Or.inr (Or.inl he)

/-- An ORM `DELETE` of the unique row matching a key, written as a filter
keeping the non-matching rows. -/
theorem filter_erase_of_unique {α : Type} (q : α → Prop) [DecidablePred q]
    (pre post : List α) (e : α)
    (hpre : ∀ x ∈ pre, ¬ q x) (hpost : ∀ x ∈ post, ¬ q x) (he : q e) :
    (pre ++ e :: post).filter (fun x => decide (¬ q x)) = pre ++ post := by
  have h1 : pre.filter (fun x => decide (¬ q x)) = pre :=
    List.filter_eq_self.mpr (fun a ha => by
      simpa using hpre a ha)
  have h2 : post.filter (fun x => decide (¬ q x)) = post :=
    List.filter_eq_self.mpr (fun a ha => by
      simpa using hpost a ha)
  have h3 : (e :: post).filter (fun x => decide (¬ q x)) =
      post.filter (fun x => decide (¬ q x)) := by
    rw [List.filter_cons]
    simp [he]
  rw [List.filter_append, h1, h3, h2]

/-- C1: for every size_mb ≥ 0 with the default thresholds 10/50/100, the
tier router returns `standard` when size ≤ 10, `limited` when 10 < size ≤
50, `minimal` when 50 < size ≤ 100 and `dead_letter` when size > 100; the
exactly-on-threshold sizes 10.0, 50.0 and 100.0 map to `standard`,
`limited` and `minimal`. -/
theorem tier_router_thresholds (size : ℚ) (h : 0 ≤ size) :
    (size ≤ 10 → determine_processing_tier size = "standard") ∧
    (10 < size → size ≤ 50 → determine_processing_tier size = "limited") ∧
    (50 < size → size ≤ 100 → determine_processing_tier size = "minimal") ∧
    (100 < size → determine_processing_tier size = "dead_letter") ∧
    determine_processing_tier 10 = "standard" ∧
    determine_processing_tier 50 = "limited" ∧
    determine_processing_tier 100 = "minimal" := by
  refine ⟨fun h1 => ?_, fun h1 h2 => ?_, fun h1 h2 => ?_, fun h1 => ?_,
    by decide, by decide, by decide⟩ <;>
    unfold determine_processing_tier SMALL_FILE_THRESHOLD
      MEDIUM_FILE_THRESHOLD LARGE_FILE_THRESHOLD
  · rw [if_neg (not_lt.mpr (by linarith)), if_neg (not_lt.mpr (by linarith)),
      if_neg (not_lt.mpr (by linarith))]
  · rw [if_neg (not_lt.mpr (by linarith)), if_neg (not_lt.mpr (by linarith)),
      if_pos h1]
  · rw [if_neg (not_lt.mpr (by linarith)), if_pos h1]
  · rw [if_pos h1]

/-- Witness for `tier_router_thresholds` at size 3. -/
theorem tier_router_thresholds_witness :
    0 ≤ (3 : ℚ) ∧ determine_processing_tier 3 = "standard" :=
  ⟨by norm_num, (tier_router_thresholds 3 (by norm_num)).1 (by norm_num)⟩

/-- C2: the retry-eligibility function returns `false` exactly when
attempts ≥ 5, or size > 100 MB, or size > 50 MB with attempts ≥ 2, or a
memory failure above 25 MB, or a parsing failure with attempts ≥ 3 — and
`true` in every other case. -/
theorem retry_eligibility_iff (ac : ℕ) (size : ℚ) (ft : String) :
    calculate_retry_eligibility ac size ft = false ↔
      (5 ≤ ac ∨ 100 < size ∨ (50 < size ∧ 2 ≤ ac) ∨
       (ft = "memory" ∧ 25 < size) ∨ (ft = "parsing" ∧ 3 ≤ ac)) := by
  unfold calculate_retry_eligibility
  split_ifs with h1 h2 h3 h4 h5 <;> simp_all

/-- C3: the backoff computed for attempt count n ≥ 1 equals
min(24·2^(n−1), 192) hours, is at most 192, is monotone non-decreasing in
n, and `add_filing`'s update of an existing entry sets `next_retry` to the
current time plus that backoff whenever the entry stays retry-eligible. -/
theorem backoff_formula_monotone_bounded (n : ℕ) (h : 1 ≤ n) (now : ℤ)
    (error : String) (size : ℚ) (ft : String) (details : Option String)
    (e : DLQEntry) :
    calculate_backoff_hours n = min (24 * 2 ^ (n - 1)) 192 ∧
    calculate_backoff_hours n ≤ 192 ∧
    calculate_backoff_hours n ≤ calculate_backoff_hours (n + 1) ∧
    ((dlq_update_existing now error size ft details e).retry_eligible = true →
      (dlq_update_existing now error size ft details e).next_retry =
        some (now + (calculate_backoff_hours (e.attempt_count + 1) : ℤ))) := by
  refine ⟨rfl, min_le_right _ _, ?_, ?_⟩
  · unfold calculate_backoff_hours
    refine min_le_min (Nat.mul_le_mul_left 24 ?_) le_rfl
    exact Nat.pow_le_pow_right (by norm_num) (by omega)
  · intro hel
    by_cases hc : calculate_retry_eligibility (e.attempt_count + 1) size ft
    · simp [dlq_update_existing, hc]
    · simp [dlq_update_existing, hc] at hel

/-- A concrete DLQ entry used to instantiate the state-machine theorems. -/
def sample_entry : DLQEntry :=
  { filing_id := 7
    failure_reason := "Timeout in standard tier"
    failure_type := "timeout"
    original_tier := some "standard"
    file_size_mb := 1
    attempt_count := 1
    retry_eligible := true
    last_attempt := 0
    next_retry := some 24
    retry_after_hours := 24
    suggested_tier := some "standard"
    priority := 2
    original_error_details := none
    created_at := 0
    updated_at := 0 }

/-- Witness for `backoff_formula_monotone_bounded` at n = 2 and a concrete
entry. -/
theorem backoff_formula_witness :
    1 ≤ 2 ∧
    (calculate_backoff_hours 2 = min (24 * 2 ^ (2 - 1)) 192 ∧
     calculate_backoff_hours 2 ≤ 192 ∧
     calculate_backoff_hours 2 ≤ calculate_backoff_hours (2 + 1) ∧
     ((dlq_update_existing 5 "again" 1 "timeout" none
        sample_entry).retry_eligible = true →
       (dlq_update_existing 5 "again" 1 "timeout" none
        sample_entry).next_retry =
         some (5 + (calculate_backoff_hours
           (sample_entry.attempt_count + 1) : ℤ)))) :=
  ⟨by decide,
   backoff_formula_monotone_bounded 2 (by decide) 5 "again" 1 "timeout"
     none sample_entry⟩

/-- C9: the DLQ priority equals the clamped spec formula — base 1, +2 for
sizes below 5 MB (else +1 below 15 MB), +1 for network/temporary failures,
−1 for memory/timeout failures, clamped to [1,5] — and always lies in
{1,…,5}. -/
theorem priority_formula_and_bounds (size : ℚ) (ft : String) :
    calculate_priority size ft = priority_spec_formula size ft ∧
    1 ≤ calculate_priority size ft ∧ calculate_priority size ft ≤ 5 := by
  simp only [calculate_priority, priority_spec_formula]
  split_ifs <;> refine ⟨by decide, by decide, by decide⟩

/-- C5: the parse phase is never actually run under the tier timeout.  For
each of the three processing tiers, `_process_with_tier` evaluates
`self.timeout_manager.timeout_context(timeout)`, but `TimeoutManager`
defines no `timeout_context` attribute (the context manager of that name is
a module-level function), so the call raises `AttributeError` before the
extraction body runs; `process_filing`'s dispatch then routes this error to
the general handler, which files it in the DLQ with failure type
`processing`, not `timeout`.  The per-tier timeout values themselves are
300/120/60 seconds as claimed. -/
theorem timeout_wiring_broken :
    (∀ body, process_with_tier "standard" body =
      .error (.attributeError "TimeoutManager" "timeout_context")) ∧
    (∀ body, process_with_tier "limited" body =
      .error (.attributeError "TimeoutManager" "timeout_context")) ∧
    (∀ body, process_with_tier "minimal" body =
      .error (.attributeError "TimeoutManager" "timeout_context")) ∧
    process_filing_failure_type
      (.attributeError "TimeoutManager" "timeout_context") = "processing" ∧
    ("processing" : String) ≠ "timeout" ∧
    get_timeout_for_tier "standard" = 300 ∧
    get_timeout_for_tier "limited" = 120 ∧
    get_timeout_for_tier "minimal" = 60 :=
  ⟨fun _ => rfl, fun _ => rfl, fun _ => rfl, rfl, by decide, rfl, rfl, rfl⟩

/-- A DLQ entry for filing 1, priced at the priority computed at insertion
for a 1 MB network failure; used to instantiate the `add_filing`
theorems. -/
def network_entry : DLQEntry :=
  { filing_id := 1
    failure_reason := "Failed to download content"
    failure_type := "network"
    original_tier := some "standard"
    file_size_mb := 1
    attempt_count := 1
    retry_eligible := true
    last_attempt := 0
    next_retry := some 24
    retry_after_hours := 24
    suggested_tier := some "standard"
    priority := calculate_priority 1 "network"
    original_error_details := none
    created_at := 0
    updated_at := 0 }

/-- A one-row DLQ state holding `network_entry`. -/
def network_state : DLQState :=
  { entries := [network_entry]
    filings := [{ id := 1, processing_status := "dead_letter",
                  updated_at := 0 }] }

/-- When the combined integrated-parser result is unsuccessful, every
selected sub-parser failed, so no metadata and no facts were merged into
the combined result. -/
theorem integrated_combine_failed_empty (sg xb : Option ParsingResultR)
    (h : (integrated_combine sg xb).success = false) :
    (integrated_combine sg xb).metadata = none ∧
    (integrated_combine sg xb).xbrl_facts = [] := by
  cases sg with
  | none =>
      cases xb with
      | none => exact ⟨rfl, rfl⟩
      | some r =>
          by_cases hr : r.success <;>
            simp_all [integrated_combine]
  | some s =>
      cases xb with
      | none =>
          by_cases hs : s.success <;>
            simp_all [integrated_combine]
      | some r =>
          by_cases hs : s.success <;> by_cases hr : r.success <;>
            simp_all [integrated_combine]

/-- C8 (amended): `FilingParser.parse` never propagates any
`Exception`-derived error to its caller: every such error — `MemoryError`
included — is caught by the blanket `except Exception` clause and converted
into a result with success false and the error recorded in the error field.
Out-of-memory conditions are not re-raised. -/
theorem parse_captures_all_exceptions (e : PyExc)
    (h : e.isException = true) :
    filing_parser_parse (.error e) =
      .ok (filing_parser_failure_result e) ∧
    (filing_parser_failure_result e).success = false ∧
    (filing_parser_failure_result e).error_message =
      some ("Integrated parsing failed: " ++ e.message) ∧
    (PyExc.memoryError "out of memory").isException = true := by
  refine ⟨?_, rfl, rfl, rfl⟩
  simp [filing_parser_parse, h]

/-- Witness for `parse_captures_all_exceptions` at a concrete parse
error. -/
theorem parse_captures_witness :
    (PyExc.parseError "bad content").isException = true ∧
    filing_parser_parse (.error (.parseError "bad content")) =
      .ok (filing_parser_failure_result (.parseError "bad content")) :=
  ⟨rfl, (parse_captures_all_exceptions (.parseError "bad content") rfl).1⟩

/-- Counterexample to C8 as stated: a `MemoryError` raised inside the parse
body is caught like any other error — `parse` returns a failed result
instead of re-raising the out-of-memory condition. -/
theorem memory_error_not_reraised :
    filing_parser_parse (.error (.memoryError "out of memory")) =
      .ok (filing_parser_failure_result (.memoryError "out of memory")) ∧
    (filing_parser_failure_result (.memoryError "out of memory")).success =
      false ∧
    filing_parser_parse (.error (.memoryError "out of memory")) ≠
      .error (.memoryError "out of memory") := by
  refine ⟨rfl, rfl, ?_⟩
  intro hcon
  simp [filing_parser_parse, PyExc.isException] at hcon

/-- C4: the persistence layer's save operation can mark nothing and write
nothing - for every result dict, failed parse results included,
`save_processing_result` raises `AttributeError` at its first statement
(it evaluates `Filing.id`, an attribute the `Filing` model does not
define), so it never sets the filing's `processing_status` to `failed`
and never returns a set of written rows. -/
theorem save_processing_result_always_raises (result : ProcResult) :
    save_processing_result result =
      .error (.attributeError "Filing" "id") ∧
    "id" ∉ filing_attributes ∧
    (∀ eff : SaveEffects, save_processing_result result ≠ .ok eff) ∧
    (PyExc.attributeError "Filing" "id").isException = true := by
  have h1 : save_processing_result result =
      .error (.attributeError "Filing" "id") := rfl
  refine ⟨h1, by decide, ?_, rfl⟩
  intro eff hcon
  rw [h1] at hcon
  exact Except.noConfusion hcon

/-- C6: `add_filing` on a filing_id already present in the DLQ never
persists its update.  The update branch stages the mutations of lines
50-81 in the session but then runs the `filter_by(id=filing_id)` lookup
of line 107, which raises `InvalidRequestError` because `Filing` has no
`id` property; the `except` clause rolls the session back and the method
returns `False` with the store - the row's `attempt_count` and every
field the claim says is recomputed - unchanged. -/
theorem add_filing_update_never_persists (now : ℤ) (fid : ℕ)
    (error : String) (size : ℚ) (ft : String)
    (tier details : Option String) (st : DLQState)
    (hexist : st.entries.any (fun e => decide (e.filing_id = fid)) =
      true) :
    add_filing now fid error size ft tier details st = (st, false) ∧
    add_filing_body now fid error size ft tier details st =
      .error (.invalidRequestError "Filing" "id") ∧
    "id" ∉ filing_attributes := by
  have hbody : add_filing_body now fid error size ft tier details st =
      .error (.invalidRequestError "Filing" "id") := by
    unfold add_filing_body
    rw [if_pos hexist]
    rfl
  refine ⟨?_, hbody, by decide⟩
  unfold add_filing
  rw [hbody]

/-- Witness for `add_filing_update_never_persists`: a repeat failure on
filing 1 leaves the one-row queue exactly as it was and reports
failure. -/
theorem add_filing_update_never_persists_witness :
    network_state.entries.any (fun e => decide (e.filing_id = 1)) =
      true ∧
    add_filing 100 1 "oom" 60 "memory" (some "standard") none
      network_state = (network_state, false) :=
  ⟨by decide,
   (add_filing_update_never_persists 100 1 "oom" 60 "memory"
      (some "standard") none network_state (by decide)).1⟩

/-- C7: `mark_as_processed` persists nothing.  The session stages exactly
the claimed effects - the row delete on success, the attempt-count
increment with recomputed eligibility and `next_retry` on failure - but
the method never calls `session.commit()`, so the close at the end of
the `with` block discards them: on success the DLQ row is not deleted,
and on failure the stored `attempt_count` is unchanged. -/
theorem mark_as_processed_never_persists (now : ℤ) (fid : ℕ)
    (st : DLQState) (pre post : List DLQEntry) (e : DLQEntry)
    (hsplit : st.entries = pre ++ e :: post)
    (he : e.filing_id = fid)
    (hpre : ∀ x ∈ pre, x.filing_id ≠ fid)
    (hpost : ∀ x ∈ post, x.filing_id ≠ fid) :
    mark_as_processed now fid true st = (st, true) ∧
    mark_as_processed now fid false st = (st, true) ∧
    (mark_as_processed_session now fid true st).pending = pre ++ post ∧
    (mark_as_processed_session now fid false st).pending =
      pre ++ dlq_failed_retry_update now e :: post ∧
    (mark_as_processed_session now fid true st).committed = false ∧
    (mark_as_processed_session now fid false st).committed = false ∧
    (mark_as_processed now fid false st).1.entries =
      pre ++ e :: post := by
  have hany : st.entries.any
      (fun x => decide (x.filing_id = fid)) = true := by
    rw [hsplit]
    exact any_of_key (fun x => x.filing_id = fid) pre post e he
  have hcom : ∀ b, (mark_as_processed_session now fid b st).committed =
      false := by
    intro b
    unfold mark_as_processed_session
    split_ifs <;> rfl
  have hclose : ∀ b, mark_as_processed now fid b st = (st, true) := by
    intro b
    unfold mark_as_processed session_close
    rw [if_neg (by simp [hcom b])]
  have hdel : (mark_as_processed_session now fid true st).pending =
      pre ++ post := by
    unfold mark_as_processed_session
    rw [if_pos hany, if_pos rfl, hsplit]
    exact filter_erase_of_unique (fun x => x.filing_id = fid) pre post e
      hpre hpost he
  have hupd : (mark_as_processed_session now fid false st).pending =
      pre ++ dlq_failed_retry_update now e :: post := by
    unfold mark_as_processed_session
    rw [if_pos hany, if_neg (by simp), hsplit]
    exact map_update_of_unique (fun x => x.filing_id = fid)
      (dlq_failed_retry_update now) pre post e hpre hpost he
  refine ⟨hclose true, hclose false, hdel, hupd, hcom true, hcom false,
    ?_⟩
  rw [hclose false]
  exact hsplit

/-- Witness for `mark_as_processed_never_persists` with a one-entry
queue: the successful retry returns `True` yet leaves the DLQ row in
place. -/
theorem mark_as_processed_discard_witness :
    ({ entries := [sample_entry], filings := [] } : DLQState).entries =
      [] ++ sample_entry :: [] ∧
    sample_entry.filing_id = 7 ∧
    mark_as_processed 30 7 true
      { entries := [sample_entry], filings := [] } =
      ({ entries := [sample_entry], filings := [] }, true) ∧
    (mark_as_processed_session 30 7 true
      { entries := [sample_entry], filings := [] }).committed = false :=
  ⟨rfl, rfl,
   (mark_as_processed_never_persists 30 7
      { entries := [sample_entry], filings := [] } [] [] sample_entry
      rfl rfl (by simp) (by simp)).1,
   (mark_as_processed_never_persists 30 7
      { entries := [sample_entry], filings := [] } [] [] sample_entry
      rfl rfl (by simp) (by simp)).2.2.2.2.1⟩

/-- C10: no `add_filing` call ever marks the referenced `Filing` row
`dead_letter`.  The insert branch raises `TypeError` in the `DLQModel`
constructor (its `retry_after_hours`, `original_error_details` and
`system_metrics` keywords are not model attributes) and the update
branch raises `InvalidRequestError` at the `filter_by(id=filing_id)`
lookup (`Filing` has no `id` property); both paths roll back and return
`False`, leaving the filings table - and with it the referenced row's
`processing_status` and `updated_at` - unchanged for every failure
type. -/
theorem add_filing_never_marks_dead_letter (now : ℤ) (fid : ℕ)
    (error : String) (size : ℚ) (ft : String)
    (tier details : Option String) (st : DLQState) :
    (add_filing now fid error size ft tier details st).1.filings =
      st.filings ∧
    (add_filing now fid error size ft tier details st).2 = false ∧
    "retry_after_hours" ∉ dead_letter_queue_columns ∧
    "id" ∉ filing_attributes := by
  have hbody : ∃ ex, add_filing_body now fid error size ft tier details
      st = .error ex := by
    by_cases hex : st.entries.any (fun e => decide (e.filing_id = fid))
      = true
    · exact ⟨.invalidRequestError "Filing" "id", by
        unfold add_filing_body
        rw [if_pos hex]
        rfl⟩
    · exact ⟨.typeError "DeadLetterQueue" "retry_after_hours", by
        unfold add_filing_body
        rw [if_neg hex]
        rfl⟩
  obtain ⟨ex, hex⟩ := hbody
  unfold add_filing
  rw [hex]
  exact ⟨rfl, rfl, by decide, by decide⟩
